import Mathlib

/-!
Verification of the studanky-strapi core logic: the Report `afterCreate`
status-propagation lifecycle hook and the `is-authentic-report` request
policy, shallowly embedded from the TypeScript sources.

Timestamps are modelled as integers (epoch instants); the store is modelled
as an explicit spring state (draft and optional published representation)
together with a behaviour record that says which store calls throw.
-/

namespace Studanky

/-- Spring status enum values matching the schema. -/
inductive SpringStatus
  | is_flowing
  | is_not_flowing
  | unknown
deriving DecidableEq, Repr

/-- One storage representation of a Spring (draft or published).
`otherFields` stands for every other content field (name, description,
coordinates, uncommitted draft edits, ...); `updatedAt` is the bookkeeping
modification timestamp that the published-row write sets explicitly. -/
structure SpringRep where
  current_status : SpringStatus
  status_updated_at : Option Int
  updatedAt : Int
  otherFields : Int
deriving DecidableEq, Repr

/-- The store state for one spring: the draft representation (absent only if
the spring vanished) and the optional published representation. -/
structure SpringState where
  draft : Option SpringRep
  published : Option SpringRep
deriving DecidableEq, Repr

/-- The fields of a newly created Report that the propagation logic reads. -/
structure Report where
  is_flowing : Bool
  reported_at : Int
deriving DecidableEq, Repr

/-- A write issued against the store, with exactly the fields the source
passes: the published-row write (`db.query().update`) sends
`current_status`, `status_updated_at` and an explicit `updatedAt`; the draft
write (Document Service) sends only the two status fields. -/
inductive WriteEvent
  | publishedWrite (status : SpringStatus) (statusUpdatedAt : Int) (updatedAt : Int)
  | draftWrite (status : SpringStatus) (statusUpdatedAt : Int)
deriving DecidableEq, Repr

/-- Outcome of one propagation run, mirroring the log branches of the hook. -/
inductive Outcome
  | skippedNotLinked
  | springNotFound
  | skippedNotNewer
  | applied
  | failed
deriving DecidableEq, Repr

/-- Effect of the published-row `db.query` update on a representation:
sets the two status fields and the bookkeeping `updatedAt`. -/
def applyPublishedWrite (rep : SpringRep) (status : SpringStatus) (t now : Int) : SpringRep :=
  { rep with current_status := status, status_updated_at := some t, updatedAt := now }

/-- Effect of the Document Service draft update on a representation:
sets only `current_status` and `status_updated_at`. -/
def applyDraftWrite (rep : SpringRep) (status : SpringStatus) (t : Int) : SpringRep :=
  { rep with current_status := status, status_updated_at := some t }

/-- `is_flowing → is_flowing`, `!is_flowing → is_not_flowing`. -/
def newStatusOf (r : Report) : SpringStatus :=
  if r.is_flowing then SpringStatus.is_flowing else SpringStatus.is_not_flowing

/-- Which store calls of one `afterCreate` invocation throw, and what the
fallback report fetch returns when it does not throw. -/
structure StoreBehavior where
  reportFetchThrows : Bool
  reportFetchSpring : Option String
  draftFetchThrows : Bool
  publishedFetchThrows : Bool
  publishedUpdateThrows : Bool
  draftUpdateThrows : Bool
deriving DecidableEq, Repr

/-- The body of the `try` block of the Report `afterCreate` hook: fetch the
draft, fetch the published representation, apply the newer-than rule against
`springPublished || springDraft`, and perform the write(s). Returns the
resulting spring state, the trace of store writes, and the outcome; a thrown
store call is caught by the surrounding `catch`, yielding `Outcome.failed`
with whatever writes already landed. -/
def runPropagation (r : Report) (beh : StoreBehavior) (now : Int) (s : SpringState) :
    SpringState × List WriteEvent × Outcome :=
  if beh.draftFetchThrows then (s, [], Outcome.failed)
  else
    match s.draft with
    | none => (s, [], Outcome.springNotFound)
    | some springDraft =>
      if beh.publishedFetchThrows then (s, [], Outcome.failed)
      else
        let referenceDoc :=
          match s.published with
          | some springPublished => springPublished
          | none => springDraft
        let notNewer : Bool :=
          match referenceDoc.status_updated_at with
          | some t => decide (r.reported_at ≤ t)
          | none => false
        if notNewer then (s, [], Outcome.skippedNotNewer)
        else
          let newStatus := newStatusOf r
          match s.published with
          | none =>
            if beh.draftUpdateThrows then (s, [], Outcome.failed)
            else
              ({ s with draft := some (applyDraftWrite springDraft newStatus r.reported_at) },
               [WriteEvent.draftWrite newStatus r.reported_at], Outcome.applied)
          | some springPublished =>
            if beh.publishedUpdateThrows then (s, [], Outcome.failed)
            else
              let published1 := some (applyPublishedWrite springPublished newStatus r.reported_at now)
              let s1 : SpringState := { s with published := published1 }
              if beh.draftUpdateThrows then
                (s1, [WriteEvent.publishedWrite newStatus r.reported_at now], Outcome.failed)
              else
                ({ s1 with draft := some (applyDraftWrite springDraft newStatus r.reported_at) },
                 [WriteEvent.publishedWrite newStatus r.reported_at now,
                  WriteEvent.draftWrite newStatus r.reported_at],
                 Outcome.applied)

/-- The shape of `params.data.spring` as the hook inspects it: a direct
`documentId`, or `connect` / `set` arrays whose first entry may carry one. -/
structure SpringRelationData where
  documentId : Option String
  connect : List (Option String)
  set : List (Option String)
deriving DecidableEq, Repr

/-- The parts of the `afterCreate` event used to resolve the spring
reference without a store call: `result.spring.documentId` when populated,
and `params.data.spring`. -/
structure ReportEvent where
  resultSpringDocumentId : Option String
  dataSpring : Option SpringRelationData
deriving DecidableEq, Repr

/-- The syntactic spring-reference resolution chain of the hook, tried
before the fallback store fetch: `result.spring.documentId`, then
`params.data.spring.documentId`, then `connect[0].documentId`, then
`set[0].documentId`. -/
def resolveSpringIdSyntactic (ev : ReportEvent) : Option String :=
  match ev.resultSpringDocumentId with
  | some sid => some sid
  | none =>
    match ev.dataSpring with
    | none => none
    | some springData =>
      match springData.documentId with
      | some sid => some sid
      | none =>
        match springData.connect.headD none with
        | some sid => some sid
        | none => springData.set.headD none

/-- The whole `afterCreate` hook. The fallback report fetch runs before the
`try` block, so an error thrown there propagates to the caller; every store
call after the spring reference is resolved is inside the `try` and is
caught. -/
def afterCreate (ev : ReportEvent) (r : Report) (beh : StoreBehavior) (now : Int)
    (s : SpringState) : Except String (SpringState × List WriteEvent × Outcome) :=
  match resolveSpringIdSyntactic ev with
  | some _ => Except.ok (runPropagation r beh now s)
  | none =>
    if beh.reportFetchThrows then Except.error "report lookup failed"
    else
      match beh.reportFetchSpring with
      | none => Except.ok (s, [], Outcome.skippedNotLinked)
      | some _ => Except.ok (runPropagation r beh now s)

/-- Whether an `Except` result is a raised error. -/
def isThrown {α : Type} (e : Except String α) : Bool :=
  match e with
  | Except.error _ => true
  | Except.ok _ => false

/-- The comparison reference of the newer-than rule:
`springPublished || springDraft`, i.e. the published representation's
`status_updated_at` when a published representation exists, the draft's
otherwise. -/
def comparisonReference (s : SpringState) (springDraft : SpringRep) : Option Int :=
  match s.published with
  | some springPublished => springPublished.status_updated_at
  | none => springDraft.status_updated_at

/-- `TIMESTAMP_MAX_AGE_SECONDS = 5 * 60` from the policy configuration. -/
def TIMESTAMP_MAX_AGE_SECONDS : Int := 5 * 60

/-- `isTimestampValid` from the policy: `age = now - timestamp`, valid iff
`age >= 0 && age <= TIMESTAMP_MAX_AGE_SECONDS`. The wall clock is passed
explicitly. -/
def isTimestampValid (now timestamp : Int) : Bool :=
  let age := now - timestamp
  decide (age ≥ 0) && decide (age ≤ TIMESTAMP_MAX_AGE_SECONDS)

/-- ASCII whitespace skipped by `parseInt` before reading the number. -/
def isJsWhitespaceChar (c : Char) : Bool :=
  c == ' ' || c == '\t' || c == '\n' || c == '\r'

/-- Value of a run of decimal digits, most significant first. -/
def digitsToNat (ds : List Char) : Nat :=
  ds.foldl (fun acc c => 10 * acc + (c.toNat - '0'.toNat)) 0

/-- Longest decimal-digit prefix; `none` when there is no leading digit
(the `NaN` case of `parseInt`). -/
def parseLeadingDigits (cs : List Char) : Option Nat :=
  let ds := cs.takeWhile Char.isDigit
  if ds.isEmpty then none else some (digitsToNat ds)

/-- `parseInt(s, 10)`: skip leading whitespace, read an optional sign, then
the longest digit prefix; `none` models `NaN`. Trailing non-digit
characters are ignored. -/
def parseInt10 (s : String) : Option Int :=
  let trimmed := s.toList.dropWhile isJsWhitespaceChar
  if trimmed.headD ' ' = '+' then
    (parseLeadingDigits trimmed.tail).map Int.ofNat
  else if trimmed.headD ' ' = '-' then
    (parseLeadingDigits trimmed.tail).map (fun n => -(Int.ofNat n))
  else
    (parseLeadingDigits trimmed).map Int.ofNat

/-- The policy's timestamp-format check: reject exactly when
`parseInt(timestampHeader, 10)` is `NaN`. -/
def timestampFormatRejected (timestampHeader : String) : Bool :=
  (parseInt10 timestampHeader).isNone

/-- Stated from the claim's words, for comparison with the code: a string
that is a decimal integer representation, i.e. an optional sign followed by
one or more digits and nothing else. -/
def isDecimalIntegerRepr (s : String) : Bool :=
  let cs := s.toList
  if cs.headD ' ' = '+' ∨ cs.headD ' ' = '-' then
    !cs.tail.isEmpty && cs.tail.all Char.isDigit
  else
    !cs.isEmpty && cs.all Char.isDigit

/-- After skipping whitespace and an optional sign, the next character is a
decimal digit: exactly the strings on which `parseInt` does not return
`NaN`. -/
def hasLeadingDigitAfterSign (s : String) : Bool :=
  let trimmed := s.toList.dropWhile isJsWhitespaceChar
  if trimmed.headD ' ' = '+' ∨ trimmed.headD ' ' = '-' then
    (trimmed.tail.headD ' ').isDigit
  else
    (trimmed.headD ' ').isDigit

/-- Value of one hex digit, accepting both cases, as `Buffer.from(-, "hex")`
does. -/
def hexDigitVal (c : Char) : Option Nat :=
  if '0' ≤ c ∧ c ≤ '9' then some (c.toNat - '0'.toNat)
  else if 'a' ≤ c ∧ c ≤ 'f' then some (c.toNat - 'a'.toNat + 10)
  else if 'A' ≤ c ∧ c ≤ 'F' then some (c.toNat - 'A'.toNat + 10)
  else none

/-- Lowercase hex digit for a value below 16, as `digest("hex")` emits. -/
def toHexDigit : Nat → Char
  | 0 => '0' | 1 => '1' | 2 => '2' | 3 => '3'
  | 4 => '4' | 5 => '5' | 6 => '6' | 7 => '7'
  | 8 => '8' | 9 => '9' | 10 => 'a' | 11 => 'b'
  | 12 => 'c' | 13 => 'd' | 14 => 'e' | _ => 'f'

/-- Two lowercase hex digits of one byte. -/
def hexEncodeByte (b : Nat) : List Char :=
  [toHexDigit (b / 16 % 16), toHexDigit (b % 16)]

/-- Hex encoding of a byte list, as `digest("hex")` produces. -/
def hexEncode (bytes : List Nat) : String :=
  String.mk (bytes.foldr (fun b acc => hexEncodeByte b ++ acc) [])

/-- `Buffer.from(s, "hex")` on a character list: consume pairs of hex
digits, stopping at the first invalid pair or a trailing odd digit. -/
def hexDecodeAux : List Char → List Nat
  | c1 :: c2 :: rest =>
    match hexDigitVal c1, hexDigitVal c2 with
    | some hi, some lo => (16 * hi + lo) :: hexDecodeAux rest
    | _, _ => []
  | _ => []

/-- `Buffer.from(s, "hex")` as a byte list. -/
def hexDecode (s : String) : List Nat :=
  hexDecodeAux s.toList

/-- `crypto.timingSafeEqual`: throws when the buffers have different
lengths, otherwise reports byte equality. -/
def timingSafeEqual (a b : List Nat) : Except String Bool :=
  if a.length = b.length then Except.ok (decide (a = b))
  else Except.error "ERR_CRYPTO_TIMING_SAFE_EQUAL_LENGTH"

/-- The policy's signature comparison (lines 137-149): decode both hex
strings, fail when the byte lengths differ, and only otherwise call
`timingSafeEqual` (the `||` short-circuit guards the throwing call). -/
def verifySignature (candidate expected : String) : Except String Bool :=
  let signatureBuffer := hexDecode candidate
  let expectedBuffer := hexDecode expected
  if signatureBuffer.length ≠ expectedBuffer.length then Except.ok false
  else timingSafeEqual signatureBuffer expectedBuffer

/-- `generateExpectedSignature`: hex-encoded HMAC-SHA256 over the payload
`"{timestamp}:{springDocumentId}"`. The HMAC itself is the external
`crypto` library, passed as a function from secret and payload to digest
bytes. -/
def generateExpectedSignature (hmacSha256 : String → String → List Nat)
    (timestamp springDocumentId secret : String) : String :=
  hexEncode (hmacSha256 secret (timestamp ++ ":" ++ springDocumentId))

/-- `MAX_DISTANCE_METERS = 500` from the policy configuration. Distances
are modelled as rationals. -/
def MAX_DISTANCE_METERS : ℚ := 500

/-- `body.data` fields the policy reads. -/
structure ReportBodyData where
  spring : Option String
  user_lat : Option ℚ
  user_lng : Option ℚ
deriving DecidableEq, Repr

/-- The request parts the policy reads: the two headers and the body. -/
structure PolicyRequest where
  xAppSignature : Option String
  xTimestamp : Option String
  body : Option ReportBodyData
deriving DecidableEq, Repr

/-- The environment of one policy invocation: configuration, wall clock,
and the external collaborators (HMAC, spring store queryable per
representation, and the distance function, which the source computes in
floating point and is therefore a parameter here). -/
structure PolicyEnv where
  hmacSecret : Option String
  now : Int
  hmacSha256 : String → String → List Nat
  springDraftCoords : String → Option (ℚ × ℚ)
  springPublishedCoords : String → Option (ℚ × ℚ)
  distanceMeters : ℚ → ℚ → ℚ → ℚ → ℚ

/-- The `is-authentic-report` policy, in source order: header presence,
timestamp format, replay window, spring id presence, secret presence, HMAC
signature comparison, then the opportunistic geo-fence, which runs only
when both user coordinates are present and looks the spring up in its
published representation only. -/
def isAuthenticReport (env : PolicyEnv) (req : PolicyRequest) : Bool :=
  match req.xAppSignature with
  | none => false
  | some signature =>
    if signature.isEmpty then false else
    match req.xTimestamp with
    | none => false
    | some timestampHeader =>
      if timestampHeader.isEmpty then false else
      match parseInt10 timestampHeader with
      | none => false
      | some timestamp =>
        if !isTimestampValid env.now timestamp then false else
        match req.body.bind ReportBodyData.spring with
        | none => false
        | some springDocumentId =>
          if springDocumentId.isEmpty then false else
          match env.hmacSecret with
          | none => false
          | some hmacSecret =>
            if hmacSecret.isEmpty then false else
            let expectedSignature :=
              generateExpectedSignature env.hmacSha256 timestampHeader springDocumentId hmacSecret
            let signatureBuffer := hexDecode signature
            let expectedBuffer := hexDecode expectedSignature
            if signatureBuffer.length ≠ expectedBuffer.length then false else
            if signatureBuffer ≠ expectedBuffer then false else
            match req.body.bind ReportBodyData.user_lat,
                  req.body.bind ReportBodyData.user_lng with
            | some userLat, some userLng =>
              match env.springPublishedCoords springDocumentId with
              | none => false
              | some springCoords =>
                if env.distanceMeters userLat userLng springCoords.1 springCoords.2 >
                    MAX_DISTANCE_METERS then false
                else true
            | _, _ => true

theorem isNone_map {α β : Type} (o : Option α) (f : α → β) :
    (o.map f).isNone = o.isNone := by
  cases o <;> rfl

theorem parseLeadingDigits_isNone (cs : List Char) :
    (parseLeadingDigits cs).isNone = !(cs.headD ' ').isDigit := by
  cases cs with
  | nil => rfl
  | cons c t =>
    by_cases hc : c.isDigit
    · simp [parseLeadingDigits, List.takeWhile_cons, hc]
    · simp [parseLeadingDigits, List.takeWhile_cons, hc]

theorem not_ws_of_isDigit (c : Char) (h : c.isDigit = true) :
    isJsWhitespaceChar c = false := by
  have h0 : c ≠ ' ' := by rintro rfl; exact absurd h (by decide)
  have h1 : c ≠ '\t' := by rintro rfl; exact absurd h (by decide)
  have h2 : c ≠ '\n' := by rintro rfl; exact absurd h (by decide)
  have h3 : c ≠ '\r' := by rintro rfl; exact absurd h (by decide)
  simp [isJsWhitespaceChar, h0, h1, h2, h3]

/-- Claim C4: for every integer timestamp `t` and current time `now`, the
timestamp check accepts iff `0 ≤ now - t ≤ 300`; the boundary ages 0 and
300 are accepted, the ages -1 and 301 rejected. -/
theorem timestamp_window (now t : Int) :
    (isTimestampValid now t = true ↔ 0 ≤ now - t ∧ now - t ≤ 300) ∧
    isTimestampValid now (now - 0) = true ∧
    isTimestampValid now (now - 300) = true ∧
    isTimestampValid now (now - (-1)) = false ∧
    isTimestampValid now (now - 301) = false := by
  refine ⟨?_, ?_, ?_, ?_, ?_⟩ <;>
    simp [isTimestampValid, TIMESTAMP_MAX_AGE_SECONDS]

/-- Claim C3, counterexample: with no spring reference in the event and a
fallback report fetch that throws, `afterCreate` raises to its caller (the
fallback fetch runs before the `try` block). -/
theorem propagator_raises_counterexample :
    isThrown (afterCreate
      { resultSpringDocumentId := none, dataSpring := none }
      { is_flowing := true, reported_at := 0 }
      { reportFetchThrows := true, reportFetchSpring := none,
        draftFetchThrows := false, publishedFetchThrows := false,
        publishedUpdateThrows := false, draftUpdateThrows := false }
      0 { draft := none, published := none }) = true := by
  rfl

/-- Claim C3, amended: the propagator raises to its caller exactly when the
spring reference cannot be resolved syntactically and the fallback report
fetch throws; every store call after the reference is resolved (the
draft/published lookups and the writes) is inside the `try` and its failure
yields only the `failed` outcome. -/
theorem propagator_raises_iff (ev : ReportEvent) (r : Report) (beh : StoreBehavior)
    (now : Int) (s : SpringState) :
    isThrown (afterCreate ev r beh now s) = true ↔
      resolveSpringIdSyntactic ev = none ∧ beh.reportFetchThrows = true := by
  unfold afterCreate
  cases h : resolveSpringIdSyntactic ev with
  | some sid => simp [isThrown]
  | none =>
    cases hb : beh.reportFetchThrows with
    | true => simp [isThrown]
    | false => cases beh.reportFetchSpring <;> simp [isThrown]

/-- Claim C7, counterexample: the header string `"123abc"` is not a decimal
integer representation, yet the timestamp-format check does not reject it
(`parseInt` reads the `123` prefix). -/
theorem timestamp_format_counterexample :
    isDecimalIntegerRepr "123abc" = false ∧
    timestampFormatRejected "123abc" = false ∧
    parseInt10 "123abc" = some 123 := by
  refine ⟨by decide, by decide, by decide⟩

/-- Claim C7, amended: the timestamp-format check rejects a header string
exactly when, after optional leading whitespace and an optional sign, the
string does not start with a decimal digit; in particular every decimal
integer representation is not rejected, but strings with trailing garbage
after a digit prefix pass the format check as well. -/
theorem timestamp_format_rejects_iff (s : String) :
    (timestampFormatRejected s = true ↔ hasLeadingDigitAfterSign s = false) ∧
    (isDecimalIntegerRepr s = true → timestampFormatRejected s = false) := by
  constructor
  · simp only [timestampFormatRejected, parseInt10, hasLeadingDigitAfterSign]
    split_ifs <;>
      first
        | tauto
        | (rw [isNone_map, parseLeadingDigits_isNone]
           simp [Bool.not_eq_true'])
  · intro hrepr
    simp only [isDecimalIntegerRepr] at hrepr
    simp only [timestampFormatRejected, parseInt10]
    cases hcs : s.toList with
    | nil => rw [hcs] at hrepr; simp +decide at hrepr
    | cons c t =>
      rw [hcs] at hrepr
      by_cases hsign : c = '+' ∨ c = '-'
      · rw [if_pos (by simpa using hsign)] at hrepr
        simp only [List.tail_cons, Bool.and_eq_true, Bool.not_eq_true'] at hrepr
        cases t with
        | nil => simp at hrepr
        | cons d t2 =>
          have hd : d.isDigit = true := by
            simp only [List.all_cons, Bool.and_eq_true] at hrepr
            exact hrepr.2.1
          rcases hsign with rfl | rfl <;>
            simp +decide [isJsWhitespaceChar, List.dropWhile_cons, isNone_map,
              parseLeadingDigits_isNone, hd]
      · rw [if_neg (by simpa using hsign)] at hrepr
        simp only [List.all_cons, Bool.and_eq_true, Bool.not_eq_true'] at hrepr
        have hc : c.isDigit = true := hrepr.2.1
        have hws : isJsWhitespaceChar c = false := not_ws_of_isDigit c hc
        push_neg at hsign
        simp [List.dropWhile_cons, hws, isNone_map, parseLeadingDigits_isNone,
          hc, hsign.1, hsign.2]

theorem applied_shape (r : Report) (beh : StoreBehavior) (now : Int) (s s' : SpringState)
    (tr : List WriteEvent)
    (h : runPropagation r beh now s = (s', tr, Outcome.applied)) :
    beh.draftFetchThrows = false ∧ beh.publishedFetchThrows = false ∧
    beh.draftUpdateThrows = false ∧
    ∃ d, s.draft = some d ∧
      ((s.published = none ∧
        s'.draft = some (applyDraftWrite d (newStatusOf r) r.reported_at) ∧
        s'.published = none ∧
        tr = [WriteEvent.draftWrite (newStatusOf r) r.reported_at]) ∨
       (∃ p, s.published = some p ∧ beh.publishedUpdateThrows = false ∧
         s'.draft = some (applyDraftWrite d (newStatusOf r) r.reported_at) ∧
         s'.published = some (applyPublishedWrite p (newStatusOf r) r.reported_at now) ∧
         tr = [WriteEvent.publishedWrite (newStatusOf r) r.reported_at now,
               WriteEvent.draftWrite (newStatusOf r) r.reported_at])) := by
  obtain ⟨sd, sp⟩ := s
  cases sd with
  | none =>
    by_cases h1 : beh.draftFetchThrows = true <;> simp [runPropagation, h1] at h
  | some d =>
    by_cases h1 : beh.draftFetchThrows = true
    · simp [runPropagation, h1] at h
    by_cases h2 : beh.publishedFetchThrows = true
    · simp [runPropagation, h1, h2] at h
    simp only [Bool.not_eq_true] at h1 h2
    cases sp with
    | none =>
      cases hru : d.status_updated_at with
      | some t0 =>
        by_cases hle : r.reported_at ≤ t0
        · simp [runPropagation, h1, h2, hru, hle] at h
        by_cases h4 : beh.draftUpdateThrows = true
        · simp [runPropagation, h1, h2, hru, hle, h4] at h
        simp only [Bool.not_eq_true] at h4
        simp only [runPropagation, h1, h2, h4, hru, hle, decide_eq_true_eq, if_neg,
          Bool.false_eq_true, if_false, Prod.mk.injEq, and_true] at h
        obtain ⟨hs, htr⟩ := h
        subst hs; subst htr
        exact ⟨h1, h2, h4, d, rfl, Or.inl ⟨rfl, rfl, rfl, rfl⟩⟩
      | none =>
        by_cases h4 : beh.draftUpdateThrows = true
        · simp [runPropagation, h1, h2, hru, h4] at h
        simp only [Bool.not_eq_true] at h4
        simp only [runPropagation, h1, h2, h4, hru, Bool.false_eq_true, if_false,
          Prod.mk.injEq, and_true] at h
        obtain ⟨hs, htr⟩ := h
        subst hs; subst htr
        exact ⟨h1, h2, h4, d, rfl, Or.inl ⟨rfl, rfl, rfl, rfl⟩⟩
    | some p =>
      cases hru : p.status_updated_at with
      | some t0 =>
        by_cases hle : r.reported_at ≤ t0
        · simp [runPropagation, h1, h2, hru, hle] at h
        by_cases h3 : beh.publishedUpdateThrows = true
        · simp [runPropagation, h1, h2, hru, hle, h3] at h
        by_cases h4 : beh.draftUpdateThrows = true
        · simp [runPropagation, h1, h2, hru, hle, h3, h4] at h
        simp only [Bool.not_eq_true] at h3 h4
        simp only [runPropagation, h1, h2, h3, h4, hru, hle, decide_eq_true_eq, if_neg,
          Bool.false_eq_true, if_false, Prod.mk.injEq, and_true] at h
        obtain ⟨hs, htr⟩ := h
        subst hs; subst htr
        exact ⟨h1, h2, h4, d, rfl, Or.inr ⟨p, rfl, h3, rfl, rfl, rfl⟩⟩
      | none =>
        by_cases h3 : beh.publishedUpdateThrows = true
        · simp [runPropagation, h1, h2, hru, h3] at h
        by_cases h4 : beh.draftUpdateThrows = true
        · simp [runPropagation, h1, h2, hru, h3, h4] at h
        simp only [Bool.not_eq_true] at h3 h4
        simp only [runPropagation, h1, h2, h3, h4, hru, Bool.false_eq_true, if_false,
          Prod.mk.injEq, and_true] at h
        obtain ⟨hs, htr⟩ := h
        subst hs; subst htr
        exact ⟨h1, h2, h4, d, rfl, Or.inr ⟨p, rfl, h3, rfl, rfl, rfl⟩⟩

/-- Claim C1: for a propagation on an existing spring with healthy store
calls, the comparison reference is the published representation's
`status_updated_at` when a published representation exists and the draft's
otherwise, and the new status is written iff that reference is null or
`reported_at` is strictly greater; `reported_at` equal to the reference is
a no-op that leaves the spring unchanged. -/
theorem newer_than_rule (r : Report) (beh : StoreBehavior) (now : Int) (s : SpringState)
    (d : SpringRep) (hd : s.draft = some d)
    (h1 : beh.draftFetchThrows = false) (h2 : beh.publishedFetchThrows = false)
    (h3 : beh.publishedUpdateThrows = false) (h4 : beh.draftUpdateThrows = false) :
    ((runPropagation r beh now s).2.2 = Outcome.applied ↔
      comparisonReference s d = none ∨
        ∃ t, comparisonReference s d = some t ∧ t < r.reported_at) ∧
    (∀ t, comparisonReference s d = some t → r.reported_at = t →
      runPropagation r beh now s = (s, [], Outcome.skippedNotNewer)) := by
  obtain ⟨sd, sp⟩ := s
  have hd' : sd = some d := hd
  subst hd'
  constructor
  · cases sp with
    | none =>
      cases hru : d.status_updated_at with
      | none =>
        simp [runPropagation, comparisonReference, h1, h2, h3, h4, hru]
      | some t0 =>
        by_cases hle : r.reported_at ≤ t0 <;>
          simp [runPropagation, comparisonReference, h1, h2, h3, h4, hru, hle] <;>
          omega
    | some p =>
      cases hru : p.status_updated_at with
      | none =>
        simp [runPropagation, comparisonReference, h1, h2, h3, h4, hru]
      | some t0 =>
        by_cases hle : r.reported_at ≤ t0 <;>
          simp [runPropagation, comparisonReference, h1, h2, h3, h4, hru, hle] <;>
          omega
  · intro t ht hteq
    cases sp with
    | none =>
      have hru : d.status_updated_at = some t := ht
      simp [runPropagation, h1, h2, hru, hteq]
    | some p =>
      have hru : p.status_updated_at = some t := ht
      simp [runPropagation, h1, h2, hru, hteq]

/-- Claim C1 witness: on a spring with both representations carrying
`status_updated_at = 10` and a report with `reported_at = 10`, the rule is
exercised at a concrete input. -/
theorem newer_than_rule_witness :
    ((runPropagation ⟨true, 10⟩ ⟨false, none, false, false, false, false⟩ 99
        ⟨some ⟨SpringStatus.unknown, some 10, 1, 5⟩,
         some ⟨SpringStatus.unknown, some 10, 2, 6⟩⟩).2.2 = Outcome.applied ↔
      comparisonReference
          ⟨some ⟨SpringStatus.unknown, some 10, 1, 5⟩,
           some ⟨SpringStatus.unknown, some 10, 2, 6⟩⟩
          ⟨SpringStatus.unknown, some 10, 1, 5⟩ = none ∨
        ∃ t, comparisonReference
            ⟨some ⟨SpringStatus.unknown, some 10, 1, 5⟩,
             some ⟨SpringStatus.unknown, some 10, 2, 6⟩⟩
            ⟨SpringStatus.unknown, some 10, 1, 5⟩ = some t ∧ t < 10) ∧
    (∀ t, comparisonReference
          ⟨some ⟨SpringStatus.unknown, some 10, 1, 5⟩,
           some ⟨SpringStatus.unknown, some 10, 2, 6⟩⟩
          ⟨SpringStatus.unknown, some 10, 1, 5⟩ = some t → 10 = t →
      runPropagation ⟨true, 10⟩ ⟨false, none, false, false, false, false⟩ 99
          ⟨some ⟨SpringStatus.unknown, some 10, 1, 5⟩,
           some ⟨SpringStatus.unknown, some 10, 2, 6⟩⟩ =
        (⟨some ⟨SpringStatus.unknown, some 10, 1, 5⟩,
          some ⟨SpringStatus.unknown, some 10, 2, 6⟩⟩, [], Outcome.skippedNotNewer)) :=
  newer_than_rule ⟨true, 10⟩ ⟨false, none, false, false, false, false⟩ 99
    ⟨some ⟨SpringStatus.unknown, some 10, 1, 5⟩,
     some ⟨SpringStatus.unknown, some 10, 2, 6⟩⟩
    ⟨SpringStatus.unknown, some 10, 1, 5⟩ rfl rfl rfl rfl rfl

/-- Claim C2: after a successful propagation on a spring with a published
representation, draft and published carry identical `current_status` and
`status_updated_at`, namely `reported_at` and the status mapped from
`is_flowing`; `unknown` is never produced. -/
theorem draft_published_sync (r : Report) (beh : StoreBehavior) (now : Int)
    (s s' : SpringState) (tr : List WriteEvent) (pub : SpringRep)
    (hpub : s.published = some pub)
    (h : runPropagation r beh now s = (s', tr, Outcome.applied)) :
    ∃ d' p', s'.draft = some d' ∧ s'.published = some p' ∧
      d'.current_status = p'.current_status ∧
      d'.status_updated_at = p'.status_updated_at ∧
      p'.status_updated_at = some r.reported_at ∧
      p'.current_status = (if r.is_flowing then SpringStatus.is_flowing
        else SpringStatus.is_not_flowing) ∧
      p'.current_status ≠ SpringStatus.unknown := by
  obtain ⟨-, -, -, d, hd, hcase⟩ := applied_shape r beh now s s' tr h
  rcases hcase with ⟨hnone, -, -, -⟩ | ⟨p, hpub2, -, hd', hp', -⟩
  · rw [hpub] at hnone; cases hnone
  · refine ⟨applyDraftWrite d (newStatusOf r) r.reported_at,
      applyPublishedWrite p (newStatusOf r) r.reported_at now, hd', hp', ?_, ?_, ?_, ?_, ?_⟩ <;>
      cases hf : r.is_flowing <;>
      simp [applyDraftWrite, applyPublishedWrite, newStatusOf, hf]

/-- Claim C2 witness: a concrete successful propagation on a spring with a
published representation. -/
theorem draft_published_sync_witness :
    ∃ d' p',
      (runPropagation ⟨true, 20⟩ ⟨false, none, false, false, false, false⟩ 99
        ⟨some ⟨SpringStatus.unknown, some 10, 1, 5⟩,
         some ⟨SpringStatus.unknown, some 10, 2, 6⟩⟩).1.draft = some d' ∧
      (runPropagation ⟨true, 20⟩ ⟨false, none, false, false, false, false⟩ 99
        ⟨some ⟨SpringStatus.unknown, some 10, 1, 5⟩,
         some ⟨SpringStatus.unknown, some 10, 2, 6⟩⟩).1.published = some p' ∧
      d'.current_status = p'.current_status ∧
      d'.status_updated_at = p'.status_updated_at ∧
      p'.status_updated_at = some 20 ∧
      p'.current_status = (if true then SpringStatus.is_flowing
        else SpringStatus.is_not_flowing) ∧
      p'.current_status ≠ SpringStatus.unknown :=
  draft_published_sync ⟨true, 20⟩ ⟨false, none, false, false, false, false⟩ 99
    ⟨some ⟨SpringStatus.unknown, some 10, 1, 5⟩,
     some ⟨SpringStatus.unknown, some 10, 2, 6⟩⟩
    ⟨some ⟨SpringStatus.is_flowing, some 20, 1, 5⟩,
     some ⟨SpringStatus.is_flowing, some 20, 99, 6⟩⟩
    [WriteEvent.publishedWrite SpringStatus.is_flowing 20 99,
     WriteEvent.draftWrite SpringStatus.is_flowing 20]
    ⟨SpringStatus.unknown, some 10, 2, 6⟩ rfl rfl

/-- Claim C8: propagation is idempotent per report: after a report's
propagation was applied, running the same report's propagation again on the
resulting state is a no-op that leaves both representations unchanged. -/
theorem propagation_idempotent (r : Report) (beh : StoreBehavior) (now now2 : Int)
    (s s' : SpringState) (tr : List WriteEvent)
    (h : runPropagation r beh now s = (s', tr, Outcome.applied)) :
    runPropagation r beh now2 s' = (s', [], Outcome.skippedNotNewer) := by
  obtain ⟨hf1, hf2, -, d, hd, hcase⟩ := applied_shape r beh now s s' tr h
  obtain ⟨sd', sp'⟩ := s'
  rcases hcase with ⟨-, hd', hp', -⟩ | ⟨p, -, -, hd', hp', -⟩ <;>
  · have hd'' : sd' = some (applyDraftWrite d (newStatusOf r) r.reported_at) := hd'
    have hp'' := hp'
    subst hd''
    simp only [SpringState.published] at hp''
    subst hp''
    simp [runPropagation, hf1, hf2, applyDraftWrite, applyPublishedWrite]

/-- Claim C8 witness: a concrete applied propagation re-run on its own
result. -/
theorem propagation_idempotent_witness :
    runPropagation ⟨true, 20⟩ ⟨false, none, false, false, false, false⟩ 123
        ⟨some ⟨SpringStatus.is_flowing, some 20, 1, 5⟩,
         some ⟨SpringStatus.is_flowing, some 20, 99, 6⟩⟩ =
      (⟨some ⟨SpringStatus.is_flowing, some 20, 1, 5⟩,
        some ⟨SpringStatus.is_flowing, some 20, 99, 6⟩⟩, [], Outcome.skippedNotNewer) :=
  propagation_idempotent ⟨true, 20⟩ ⟨false, none, false, false, false, false⟩ 99 123
    ⟨some ⟨SpringStatus.unknown, some 10, 1, 5⟩,
     some ⟨SpringStatus.unknown, some 10, 2, 6⟩⟩
    ⟨some ⟨SpringStatus.is_flowing, some 20, 1, 5⟩,
     some ⟨SpringStatus.is_flowing, some 20, 99, 6⟩⟩
    [WriteEvent.publishedWrite SpringStatus.is_flowing 20 99,
     WriteEvent.draftWrite SpringStatus.is_flowing 20] rfl

/-- Claim C9, counterexample: the published-row write does not write only
`current_status` and `status_updated_at`: it also overwrites the published
representation's `updatedAt` bookkeeping field (set explicitly to the wall
clock in the `db.query` update), so not every other field of the published
representation is left unchanged. -/
theorem two_writes_counterexample :
    (runPropagation ⟨true, 20⟩ ⟨false, none, false, false, false, false⟩ 99
        ⟨some ⟨SpringStatus.unknown, some 10, 1, 5⟩,
         some ⟨SpringStatus.unknown, some 10, 2, 6⟩⟩).2.2 = Outcome.applied ∧
    (SpringState.published ⟨some ⟨SpringStatus.unknown, some 10, 1, 5⟩,
         some ⟨SpringStatus.unknown, some 10, 2, 6⟩⟩).map SpringRep.updatedAt = some 2 ∧
    (runPropagation ⟨true, 20⟩ ⟨false, none, false, false, false, false⟩ 99
        ⟨some ⟨SpringStatus.unknown, some 10, 1, 5⟩,
         some ⟨SpringStatus.unknown, some 10, 2, 6⟩⟩).1.published.map SpringRep.updatedAt
      = some 99 ∧
    (99 : Int) ≠ 2 := by
  refine ⟨rfl, rfl, rfl, by decide⟩

/-- Claim C9, amended: when a published representation exists, an applied
propagation performs exactly two writes, published first then draft; the
draft write sets only `current_status` and `status_updated_at`; the
published write sets those two fields and refreshes the `updatedAt`
bookkeeping timestamp; all other fields of both representations (including
uncommitted draft edits) are unchanged, and the published write takes its
content from the published copy, never cascading draft content. -/
theorem two_writes_frame (r : Report) (beh : StoreBehavior) (now : Int)
    (s s' : SpringState) (tr : List WriteEvent) (d pub : SpringRep)
    (hd : s.draft = some d) (hpub : s.published = some pub)
    (h : runPropagation r beh now s = (s', tr, Outcome.applied)) :
    tr = [WriteEvent.publishedWrite (newStatusOf r) r.reported_at now,
          WriteEvent.draftWrite (newStatusOf r) r.reported_at] ∧
    s'.draft = some (applyDraftWrite d (newStatusOf r) r.reported_at) ∧
    s'.published = some (applyPublishedWrite pub (newStatusOf r) r.reported_at now) ∧
    s'.draft.map SpringRep.otherFields = some d.otherFields ∧
    s'.draft.map SpringRep.updatedAt = some d.updatedAt ∧
    s'.published.map SpringRep.otherFields = some pub.otherFields := by
  obtain ⟨-, -, -, d0, hd0, hcase⟩ := applied_shape r beh now s s' tr h
  have hdd : d0 = d := by rw [hd] at hd0; exact (Option.some.inj hd0).symm
  subst hdd
  rcases hcase with ⟨hnone, -, -, -⟩ | ⟨p, hpub2, -, hd', hp', htr⟩
  · rw [hpub] at hnone; cases hnone
  · have hpp : p = pub := by rw [hpub] at hpub2; exact (Option.some.inj hpub2).symm
    subst hpp
    refine ⟨htr, hd', hp', ?_, ?_, ?_⟩ <;>
      simp [hd', hp', applyDraftWrite, applyPublishedWrite]

/-- Claim C9 witness: the amended frame property at a concrete applied
propagation. -/
theorem two_writes_frame_witness :
    (runPropagation ⟨true, 20⟩ ⟨false, none, false, false, false, false⟩ 99
        ⟨some ⟨SpringStatus.unknown, some 10, 1, 5⟩,
         some ⟨SpringStatus.unknown, some 10, 2, 6⟩⟩).2.1 =
      [WriteEvent.publishedWrite (newStatusOf ⟨true, 20⟩) 20 99,
       WriteEvent.draftWrite (newStatusOf ⟨true, 20⟩) 20] ∧
    (runPropagation ⟨true, 20⟩ ⟨false, none, false, false, false, false⟩ 99
        ⟨some ⟨SpringStatus.unknown, some 10, 1, 5⟩,
         some ⟨SpringStatus.unknown, some 10, 2, 6⟩⟩).1.draft =
      some (applyDraftWrite ⟨SpringStatus.unknown, some 10, 1, 5⟩ (newStatusOf ⟨true, 20⟩) 20) ∧
    (runPropagation ⟨true, 20⟩ ⟨false, none, false, false, false, false⟩ 99
        ⟨some ⟨SpringStatus.unknown, some 10, 1, 5⟩,
         some ⟨SpringStatus.unknown, some 10, 2, 6⟩⟩).1.published =
      some (applyPublishedWrite ⟨SpringStatus.unknown, some 10, 2, 6⟩
        (newStatusOf ⟨true, 20⟩) 20 99) ∧
    (runPropagation ⟨true, 20⟩ ⟨false, none, false, false, false, false⟩ 99
        ⟨some ⟨SpringStatus.unknown, some 10, 1, 5⟩,
         some ⟨SpringStatus.unknown, some 10, 2, 6⟩⟩).1.draft.map SpringRep.otherFields =
      some 5 ∧
    (runPropagation ⟨true, 20⟩ ⟨false, none, false, false, false, false⟩ 99
        ⟨some ⟨SpringStatus.unknown, some 10, 1, 5⟩,
         some ⟨SpringStatus.unknown, some 10, 2, 6⟩⟩).1.draft.map SpringRep.updatedAt =
      some 1 ∧
    (runPropagation ⟨true, 20⟩ ⟨false, none, false, false, false, false⟩ 99
        ⟨some ⟨SpringStatus.unknown, some 10, 1, 5⟩,
         some ⟨SpringStatus.unknown, some 10, 2, 6⟩⟩).1.published.map SpringRep.otherFields =
      some 6 :=
  two_writes_frame ⟨true, 20⟩ ⟨false, none, false, false, false, false⟩ 99
    ⟨some ⟨SpringStatus.unknown, some 10, 1, 5⟩,
     some ⟨SpringStatus.unknown, some 10, 2, 6⟩⟩
    ⟨some ⟨SpringStatus.is_flowing, some 20, 1, 5⟩,
     some ⟨SpringStatus.is_flowing, some 20, 99, 6⟩⟩
    [WriteEvent.publishedWrite SpringStatus.is_flowing 20 99,
     WriteEvent.draftWrite SpringStatus.is_flowing 20]
    ⟨SpringStatus.unknown, some 10, 1, 5⟩ ⟨SpringStatus.unknown, some 10, 2, 6⟩
    rfl rfl rfl

theorem hexDigitVal_toHexDigit (h : Nat) (hh : h < 16) :
    hexDigitVal (toHexDigit h) = some h := by
  interval_cases h <;> decide

theorem hexDecodeAux_encode (bytes : List Nat) (hvalid : ∀ b ∈ bytes, b < 256) :
    hexDecodeAux (bytes.foldr (fun b acc => hexEncodeByte b ++ acc) []) = bytes := by
  induction bytes with
  | nil => rfl
  | cons b bs ih =>
    have hb : b < 256 := hvalid b (by simp)
    have hbs : ∀ x ∈ bs, x < 256 := fun x hx => hvalid x (by simp [hx])
    have h1 : b / 16 % 16 < 16 := Nat.mod_lt _ (by norm_num)
    have h2 : b % 16 < 16 := Nat.mod_lt _ (by norm_num)
    have harith : 16 * (b / 16 % 16) + b % 16 = b := by omega
    simp only [List.foldr_cons]
    rw [hexEncodeByte]
    simp only [List.cons_append, List.nil_append, hexDecodeAux,
      hexDigitVal_toHexDigit _ h1, hexDigitVal_toHexDigit _ h2, harith]
    exact congrArg (List.cons b) (ih hbs)

theorem hexDecode_hexEncode (bytes : List Nat) (hvalid : ∀ b ∈ bytes, b < 256) :
    hexDecode (hexEncode bytes) = bytes :=
  hexDecodeAux_encode bytes hvalid

/-- Claim C5: self-verification of a generated signature succeeds; under
the collision-freeness assumption on the external HMAC (distinct digests
for the changed inputs, digests being byte lists), verifying a signature
generated from changed inputs against the original fails; a candidate
whose decoded byte length differs from the expected digest's is a plain
verification failure; and the comparison never raises (the length guard
short-circuits before the throwing `timingSafeEqual`). -/
theorem sign_verify (hmacSha256 : String → String → List Nat)
    (t s k t2 s2 k2 cand exp : String)
    (hv : ∀ b ∈ hmacSha256 k (t ++ ":" ++ s), b < 256)
    (hv2 : ∀ b ∈ hmacSha256 k2 (t2 ++ ":" ++ s2), b < 256)
    (hne : hmacSha256 k2 (t2 ++ ":" ++ s2) ≠ hmacSha256 k (t ++ ":" ++ s))
    (hlen : (hexDecode cand).length ≠ (hexDecode exp).length) :
    verifySignature (generateExpectedSignature hmacSha256 t s k)
        (generateExpectedSignature hmacSha256 t s k) = Except.ok true ∧
    verifySignature (generateExpectedSignature hmacSha256 t2 s2 k2)
        (generateExpectedSignature hmacSha256 t s k) = Except.ok false ∧
    verifySignature cand exp = Except.ok false ∧
    (∀ c e : String, ∃ b : Bool, verifySignature c e = Except.ok b) := by
  have e1 : hexDecode (generateExpectedSignature hmacSha256 t s k) =
      hmacSha256 k (t ++ ":" ++ s) := hexDecode_hexEncode _ hv
  have e2 : hexDecode (generateExpectedSignature hmacSha256 t2 s2 k2) =
      hmacSha256 k2 (t2 ++ ":" ++ s2) := hexDecode_hexEncode _ hv2
  refine ⟨?_, ?_, ?_, ?_⟩
  · simp [verifySignature, timingSafeEqual]
  · unfold verifySignature
    rw [e1, e2]
    by_cases hl : (hmacSha256 k2 (t2 ++ ":" ++ s2)).length =
        (hmacSha256 k (t ++ ":" ++ s)).length
    · rw [if_neg (by simpa using hl)]
      simp [timingSafeEqual, hl, hne]
    · rw [if_pos hl]
  · simp [verifySignature, hlen]
  · intro c e
    by_cases hl : (hexDecode c).length = (hexDecode e).length
    · exact ⟨decide (hexDecode c = hexDecode e),
        by simp [verifySignature, timingSafeEqual, hl]⟩
    · exact ⟨false, by simp [verifySignature, timingSafeEqual, hl]⟩

/-- Claim C5 witness: a concrete HMAC function (digest = payload length),
concrete inputs where changing the timestamp changes the digest, and a
concrete length-mismatched candidate. -/
theorem sign_verify_witness :
    verifySignature
        (generateExpectedSignature (fun _k p => [p.length % 256]) "10" "a" "x")
        (generateExpectedSignature (fun _k p => [p.length % 256]) "10" "a" "x") =
      Except.ok true ∧
    verifySignature
        (generateExpectedSignature (fun _k p => [p.length % 256]) "100" "a" "x")
        (generateExpectedSignature (fun _k p => [p.length % 256]) "10" "a" "x") =
      Except.ok false ∧
    verifySignature "zz" "0000" = Except.ok false ∧
    (∀ c e : String, ∃ b : Bool, verifySignature c e = Except.ok b) :=
  sign_verify (fun _k p => [p.length % 256]) "10" "a" "x" "100" "a" "x" "zz" "0000"
    (by decide) (by decide) (by decide) (by decide)

/-- Claim C7 witness: the amended characterisation at the concrete header
string `"42"`, whose hypothesis (being a decimal integer representation) is
discharged concretely. -/
theorem timestamp_format_rejects_iff_witness :
    (timestampFormatRejected "42" = true ↔ hasLeadingDigitAfterSign "42" = false) ∧
    timestampFormatRejected "42" = false :=
  ⟨(timestamp_format_rejects_iff "42").1,
   (timestamp_format_rejects_iff "42").2 (by decide)⟩

/-- Claim C6: when every earlier policy step passes, the geo-fence step
runs iff both user coordinates are present in the body: it then accepts iff
the spring is found in its published representation and the distance is at
most 500 meters; when either coordinate is absent the step is skipped and
the request is accepted. -/
theorem geo_fence_conditional (env : PolicyEnv) (req : PolicyRequest)
    (sig tsH sid sec : String) (bodyData : ReportBodyData) (ts : Int)
    (h1 : req.xAppSignature = some sig) (h1e : sig.isEmpty = false)
    (h2 : req.xTimestamp = some tsH) (h2e : tsH.isEmpty = false)
    (h3 : parseInt10 tsH = some ts)
    (h4 : isTimestampValid env.now ts = true)
    (h5 : req.body = some bodyData) (h5s : bodyData.spring = some sid)
    (h5e : sid.isEmpty = false)
    (h6 : env.hmacSecret = some sec) (h6e : sec.isEmpty = false)
    (h7 : hexDecode sig = hexDecode (generateExpectedSignature env.hmacSha256 tsH sid sec)) :
    (∀ la ln, bodyData.user_lat = some la → bodyData.user_lng = some ln →
      (isAuthenticReport env req = true ↔
        ∃ c : ℚ × ℚ, env.springPublishedCoords sid = some c ∧
          env.distanceMeters la ln c.1 c.2 ≤ MAX_DISTANCE_METERS)) ∧
    ((bodyData.user_lat = none ∨ bodyData.user_lng = none) →
      isAuthenticReport env req = true) := by
  constructor
  · intro la ln hla hln
    simp only [isAuthenticReport, h1, h2, h3, h4, h5, h5s, h6, h7, h1e, h2e, h5e, h6e,
      Option.some_bind, hla, hln, Bool.not_true, Bool.false_eq_true, if_false, ne_eq,
      not_true_eq_false]
    cases hc : env.springPublishedCoords sid with
    | none => simp
    | some c =>
      by_cases hdist : env.distanceMeters la ln c.1 c.2 > MAX_DISTANCE_METERS
      · simp [hdist]
      · simp [hdist]
        exact not_lt.mp hdist
  · intro hor
    rcases hor with hla | hln
    · simp only [isAuthenticReport, h1, h2, h3, h4, h5, h5s, h6, h7, h1e, h2e, h5e, h6e,
        Option.some_bind, hla, Bool.not_true, Bool.false_eq_true, if_false, ne_eq,
        not_true_eq_false]
    · cases hxl : bodyData.user_lat with
      | none =>
        simp only [isAuthenticReport, h1, h2, h3, h4, h5, h5s, h6, h7, h1e, h2e, h5e, h6e,
          Option.some_bind, hxl, Bool.not_true, Bool.false_eq_true, if_false, ne_eq,
          not_true_eq_false]
      | some la =>
        simp only [isAuthenticReport, h1, h2, h3, h4, h5, h5s, h6, h7, h1e, h2e, h5e, h6e,
          Option.some_bind, hxl, hln, Bool.not_true, Bool.false_eq_true, if_false, ne_eq,
          not_true_eq_false]

/-- Claim C6 witness: a concrete environment (constant HMAC and distance 0)
and request exercising the geo-fence conditional. -/
theorem geo_fence_conditional_witness :
    (∀ la ln,
      ReportBodyData.user_lat ⟨some "s", some 1, some 2⟩ = some la →
      ReportBodyData.user_lng ⟨some "s", some 1, some 2⟩ = some ln →
      (isAuthenticReport
          ⟨some "k", 0, fun _ _ => [0], fun _ => none, fun _ => some (0, 0),
           fun _ _ _ _ => 0⟩
          ⟨some "00", some "0", some ⟨some "s", some 1, some 2⟩⟩ = true ↔
        ∃ c : ℚ × ℚ,
          (fun _ : String => some ((0 : ℚ), (0 : ℚ))) "s" = some c ∧
            (fun _ _ _ _ : ℚ => (0 : ℚ)) la ln c.1 c.2 ≤ MAX_DISTANCE_METERS)) ∧
    ((ReportBodyData.user_lat ⟨some "s", some 1, some 2⟩ = none ∨
      ReportBodyData.user_lng ⟨some "s", some 1, some 2⟩ = none) →
      isAuthenticReport
          ⟨some "k", 0, fun _ _ => [0], fun _ => none, fun _ => some (0, 0),
           fun _ _ _ _ => 0⟩
          ⟨some "00", some "0", some ⟨some "s", some 1, some 2⟩⟩ = true) :=
  geo_fence_conditional
    ⟨some "k", 0, fun _ _ => [0], fun _ => none, fun _ => some (0, 0), fun _ _ _ _ => 0⟩
    ⟨some "00", some "0", some ⟨some "s", some 1, some 2⟩⟩
    "00" "0" "s" "k" ⟨some "s", some 1, some 2⟩ 0
    rfl (by decide) rfl (by decide) (by decide) (by decide) rfl rfl (by decide)
    rfl (by decide) (by decide)

/-- Claim C10: the geo-fence lookup reads only the published representation
of the spring, so a request with both coordinates for a spring that exists
only as a draft is rejected as spring-not-found even though every other
check passes, while the same request without coordinates is accepted. -/
theorem draft_only_spring_geo (env : PolicyEnv) (req : PolicyRequest)
    (sig tsH sid sec : String) (bodyData : ReportBodyData) (ts : Int)
    (la ln dlat dlng : ℚ)
    (h1 : req.xAppSignature = some sig) (h1e : sig.isEmpty = false)
    (h2 : req.xTimestamp = some tsH) (h2e : tsH.isEmpty = false)
    (h3 : parseInt10 tsH = some ts)
    (h4 : isTimestampValid env.now ts = true)
    (h5 : req.body = some bodyData) (h5s : bodyData.spring = some sid)
    (h5e : sid.isEmpty = false)
    (h6 : env.hmacSecret = some sec) (h6e : sec.isEmpty = false)
    (h7 : hexDecode sig = hexDecode (generateExpectedSignature env.hmacSha256 tsH sid sec))
    (hdraft : env.springDraftCoords sid = some (dlat, dlng))
    (hpubnone : env.springPublishedCoords sid = none)
    (hla : bodyData.user_lat = some la) (hln : bodyData.user_lng = some ln) :
    isAuthenticReport env req = false ∧
    isAuthenticReport env
      { req with body := some { bodyData with user_lat := none, user_lng := none } } =
      true := by
  constructor
  · simp only [isAuthenticReport, h1, h2, h3, h4, h5, h5s, h6, h7, h1e, h2e, h5e, h6e,
      Option.some_bind, hla, hln, hpubnone, Bool.not_true, Bool.false_eq_true, if_false,
      ne_eq, not_true_eq_false]
  · simp only [isAuthenticReport, h1, h2, h3, h4, h6, h7, h1e, h2e, h5e, h6e,
      Option.some_bind, h5s, Bool.not_true, Bool.false_eq_true, if_false, ne_eq,
      not_true_eq_false]

/-- Claim C10 witness: a concrete draft-only spring (published lookup
returns nothing, draft lookup succeeds) with an otherwise valid request. -/
theorem draft_only_spring_geo_witness :
    isAuthenticReport
        ⟨some "k", 0, fun _ _ => [0], fun _ => some (3, 4), fun _ => none,
         fun _ _ _ _ => 0⟩
        ⟨some "00", some "0", some ⟨some "s", some 1, some 2⟩⟩ = false ∧
    isAuthenticReport
        ⟨some "k", 0, fun _ _ => [0], fun _ => some (3, 4), fun _ => none,
         fun _ _ _ _ => 0⟩
        ⟨some "00", some "0", some ⟨some "s", none, none⟩⟩ = true :=
  draft_only_spring_geo
    ⟨some "k", 0, fun _ _ => [0], fun _ => some (3, 4), fun _ => none, fun _ _ _ _ => 0⟩
    ⟨some "00", some "0", some ⟨some "s", some 1, some 2⟩⟩
    "00" "0" "s" "k" ⟨some "s", some 1, some 2⟩ 0 1 2 3 4
    rfl (by decide) rfl (by decide) (by decide) (by decide) rfl rfl (by decide)
    rfl (by decide) (by decide) rfl rfl rfl rfl

end Studanky
